import Mathlib

/-!
# Verification of the `www/orm.py` object-relational mapper

A shallow embedding of the ORM module: the connection-pool facade
(`create_pool` / `destroy_pool`), the statement executor (`select` /
`execute`), the field descriptors, the metaclass that derives SQL
templates for each entity type (`ModelMetaclass.__new__`), and the
`Model` CRUD helpers (`getValueOrDefault`, `findAll`, `find`).

Conventions of the embedding:
* Python values that may be `None` are modelled as `Option`;
  `Option.none` is Python's `None`.
* Python exceptions are modelled with `Except`; the error type records
  which exception is raised.  Note that the source, although a Python 3
  module, raises `StandardError`, a name that exists only in Python 2:
  evaluating that name raises `NameError` in Python 3, so the embedding
  of those two `raise` statements produces a `NameError` whose payload
  is the undefined name (the intended message string is never built).
* Async connection operations (`begin`, `commit`, `rollback`,
  `cursor.execute`, `pool.close`, `pool.wait_closed`) are modelled as
  events accumulated in a trace, so that ordering claims about them can
  be stated.
-/

set_option autoImplicit false

namespace orm

universe u

/-- Python truthiness of an optional string (`if s:`): `None` and the
empty string are falsy. -/
def strTruthy : Option String → Bool
  | none => false
  | some s => s ≠ ""

/-- Python `x or y` where `x` is a string-or-`None`: yields `x` when `x`
is truthy (non-`None` and non-empty), else `y`. -/
def pyOrStr (x : Option String) (y : String) : String :=
  match x with
  | none => y
  | some s => if s = "" then y else s

/-- Python `', '.join(xs)` (and `' '.join(xs)`): empty for `[]`, the
single element for `[x]`, else elements interleaved with the
separator. -/
def join (sep : String) : List String → String
  | [] => ""
  | [x] => x
  | x :: y :: rest => x ++ sep ++ join sep (y :: rest)

/-- Embedding of `create_args_string(num)` (orm.py lines 97-106): builds a list of
`num` copies of `"?"` and joins them with `", "`. -/
def create_args_string (num : Nat) : String :=
  join ", " (List.replicate num "?")

/-- A field default value (`Field.default`): Python `None` (no
default), a plain non-`None` literal, or a callable producing a value
(which may itself return `None`). -/
inductive PyDefault (α : Type u) : Type u where
  | pyNone : PyDefault α
  | lit (v : α) : PyDefault α
  | fn (f : Unit → Option α) : PyDefault α

/-- Embedding of `Field` (orm.py lines 109-122): a column descriptor holding the
declared column name (`None` when not given), the column type, the
primary-key flag and the default.  `α` is the domain of column
values. -/
structure Field (α : Type u) : Type u where
  name : Option String
  column_type : String
  primary_key : Bool
  default : PyDefault α

/-- Embedding of `StringField` (orm.py lines 130-134): column type is the `ddl`
argument (`'varchar(100)'` at the Python default). -/
def StringField {α : Type u} (name : Option String) (primary_key : Bool)
    (default : PyDefault α) (ddl : String) : Field α :=
  Field.mk name ddl primary_key default

/-- Embedding of `IntegerField` (orm.py lines 142-144): column type `'bigint'`;
the Python default for `default` is the literal `0`. -/
def IntegerField {α : Type u} (name : Option String) (primary_key : Bool)
    (default : PyDefault α) : Field α :=
  Field.mk name "bigint" primary_key default

/-- A value in the metaclass's `attrs` dictionary: either a `Field`
descriptor (`isinstance(v, Field)` true) or any other attribute
(method, plain value, dunder entry). -/
inductive Attr (α : Type u) : Type u where
  | field (f : Field α) : Attr α
  | plain : Attr α

/-- Python exceptions relevant to this module. `nameError n` is
`NameError: name n is not defined`. -/
inductive PyErr : Type where
  | nameError (name : String) : PyErr
  deriving DecidableEq

/-- Embedding of `dict.get(k)` on the `mappings` dictionary, modelled over the
insertion-ordered association list (keys are unique because `mappings`
is built from the keys of the `attrs` dict). -/
def dictGet {α : Type u} (m : List (String × Field α)) (k : String) :
    Option (Field α) :=
  match m with
  | [] => none
  | (k2, v) :: rest => if k2 = k then some v else dictGet rest k

/-- Python truthiness of the `primaryKey` variable (`if primaryKey:`),
a string-or-`None`: falsy when `None` or empty. -/
def pkTruthy : Option String → Bool
  | none => false
  | some s => s ≠ ""

/-- The scan loop of `ModelMetaclass.__new__` (orm.py lines 185-196):
walks `attrs.items()` in declaration order; each `Field` value is
recorded in `mappings`; a primary-key field is recorded in
`primaryKey`, and a second one triggers
`raise StandardError('Duplicate primary key for field: %s' % k)` —
but `StandardError` is undefined in Python 3, so what is actually
raised is `NameError` for the name `StandardError` (the message naming
`k` is never constructed).  Non-primary-key field keys are appended to
`fields`. -/
def scanLoop {α : Type u} (attrs : List (String × Attr α))
    (mappings : List (String × Field α)) (fields : List String)
    (primaryKey : Option String) :
    Except PyErr (List (String × Field α) × List String × Option String) :=
  match attrs with
  | [] => Except.ok (mappings, fields, primaryKey)
  | (_, Attr.plain) :: rest => scanLoop rest mappings fields primaryKey
  | (k, Attr.field v) :: rest =>
    let mappings := mappings ++ [(k, v)]
    if v.primary_key then
      if pkTruthy primaryKey then
        Except.error (PyErr.nameError "StandardError")
      else
        scanLoop rest mappings fields (some k)
    else
      scanLoop rest mappings (fields ++ [k]) primaryKey

/-- Embedding of `'`%s`' % f` (orm.py line 204): the escaping applied to each
non-primary-key field key for `escaped_fields`. -/
def escape (f : String) : String :=
  "`" ++ f ++ "`"

/-- One set clause of the update template (orm.py lines 218-226):
``'`%s`=?' % (mappings.get(f).name or f)`` — the declared column name
when truthy, else the attribute key.  Every `f` drawn from `fields`
has an entry in `mappings` (it was inserted in the same loop
iteration), so the `dict.get` always succeeds; a missing key would
crash in the source and is unreachable. -/
def setClause {α : Type u} (mappings : List (String × Field α))
    (f : String) : String :=
  "`" ++ pyOrStr ((dictGet mappings f).bind Field.name) f ++ "`=?"

/-- The `__select__` template (orm.py lines 210-211):
`'select `%s`, %s from `%s`' % (primaryKey, ', '.join(escaped_fields),
tableName)`. -/
def mkSelect (primaryKey : String) (escaped_fields : List String)
    (tableName : String) : String :=
  "select `" ++ primaryKey ++ "`, " ++ join ", " escaped_fields ++
    " from `" ++ tableName ++ "`"

/-- The `__insert__` template (orm.py lines 214-216):
`'insert into `%s` (%s, `%s`) values (%s)'` filled with the table
name, the joined escaped fields, the primary key, and
`create_args_string(len(escaped_fields) + 1)`. -/
def mkInsert (tableName : String) (escaped_fields : List String)
    (primaryKey : String) : String :=
  "insert into `" ++ tableName ++ "` (" ++ join ", " escaped_fields ++
    ", `" ++ primaryKey ++ "`) values (" ++
    create_args_string (escaped_fields.length + 1) ++ ")"

/-- The `__update__` template (orm.py lines 218-226):
`'update `%s` set %s where `%s`=?'` filled with the table name, the
joined set clauses, and the primary key. -/
def mkUpdate (tableName : String) (setPart : String)
    (primaryKey : String) : String :=
  "update `" ++ tableName ++ "` set " ++ setPart ++
    " where `" ++ primaryKey ++ "`=?"

/-- The `__delete__` template (orm.py lines 227-228). -/
def mkDelete (tableName : String) (primaryKey : String) : String :=
  "delete from `" ++ tableName ++ "` where `" ++ primaryKey ++ "`=?"

/-- The class attributes stored on a successfully constructed entity
type (orm.py lines 205-228): `__mappings__`, `__table__`,
`__primary_key__`, `__fields__` and the four SQL templates. -/
structure EntityMeta (α : Type u) : Type u where
  mappings : List (String × Field α)
  table : String
  primary_key : String
  fields : List String
  select : String
  insert : String
  update : String
  delete : String

/-- Template derivation of `ModelMetaclass.__new__` after a successful
scan (orm.py lines 203-228), from the table name, the primary-key
attribute key, the field mapping and the non-primary-key field keys in
declaration order. -/
def buildMeta {α : Type u} (tableName primaryKey : String)
    (mappings : List (String × Field α)) (fields : List String) :
    EntityMeta α :=
  let escaped_fields := fields.map escape
  EntityMeta.mk mappings tableName primaryKey fields
    (mkSelect primaryKey escaped_fields tableName)
    (mkInsert tableName escaped_fields primaryKey)
    (mkUpdate tableName (join ", " (fields.map (setClause mappings)))
      primaryKey)
    (mkDelete tableName primaryKey)

/-- Embedding of `ModelMetaclass.__new__` (orm.py lines 164-229).  `tableAttr`
models `attrs.get('__table__', None)`; for the base class
(`name == 'Model'`) no mapping is derived and the result is `ok none`.
After the scan, `if not primaryKey: raise StandardError('Primary key
not found.')` — again `StandardError` is an undefined name in
Python 3, so a `NameError` is what actually escapes; the falsy cases
of `primaryKey` are `None` and the empty string. -/
def modelMetaclassNew {α : Type u} (name : String)
    (tableAttr : Option String) (attrs : List (String × Attr α)) :
    Except PyErr (Option (EntityMeta α)) :=
  if name = "Model" then
    Except.ok none
  else
    let tableName := pyOrStr tableAttr name
    match scanLoop attrs [] [] none with
    | Except.error e => Except.error e
    | Except.ok (mappings, fields, primaryKey) =>
      match primaryKey with
      | none => Except.error (PyErr.nameError "StandardError")
      | some pk =>
        if pk = "" then Except.error (PyErr.nameError "StandardError")
        else Except.ok (some (buildMeta tableName pk mappings fields))

/-- Embedding of `sql.replace('?', '%s')` (orm.py lines 64 and 83): every `'?'`
character is rewritten to `"%s"`, all other characters are kept.  The
pattern is a single character, so Python's non-overlapping scan is
exactly this character-wise rewrite. -/
def replaceQ (s : String) : String :=
  String.mk (s.data.foldr
    (fun c acc => if c = '?' then '%' :: 's' :: acc else c :: acc) [])

/-- Embedding of `select(sql, args, size)` (orm.py lines 49-72).  `rows` is the
result set the cursor would produce for the query; the function
returns the SQL string actually executed (after the `'?' → '%s'`
placeholder rewrite of line 64), the argument tuple passed to the
driver (`args or ()`), and the rows fetched client-side:
`cur.fetchmany(size)` — the first at-most-`size` rows — when `size`
is truthy (`if size:`, so `None` and `0` both mean `fetchall`), else
`cur.fetchall()`. -/
def select {α : Type u} {ρ : Type u} (sql : String)
    (args : Option (List α)) (size : Option Nat) (rows : List ρ) :
    String × List α × List ρ :=
  let executedSql := replaceQ sql
  let executedArgs := args.getD []
  let rs :=
    match size with
    | none => rows
    | some n => if n = 0 then rows else rows.take n
  (executedSql, executedArgs, rs)

/-- A connection-level database event, in the order issued by the
executor. -/
inductive DbEvent (α : Type u) : Type u where
  | begin : DbEvent α
  | exec (sql : String) (args : List α) : DbEvent α
  | commit : DbEvent α
  | rollback : DbEvent α
  deriving DecidableEq

/-- Embedding of `execute(sql, args, autocommit)` (orm.py lines 75-94).  `res` is
the outcome of `cur.execute` on the driver: `ok affected` (the
statement ran, `cur.rowcount = affected`) or `error e` (the driver
raised `e`).  The result is the trace of connection events together
with the returned row count or the propagated exception:
`conn.begin()` first when `autocommit` is false; then the statement
(with the `'?' → '%s'` rewrite); then `conn.commit()` on success or
`conn.rollback()` before the bare `raise` on failure — both only when
`autocommit` is false. -/
def execute {α : Type u} {ε : Type u} (sql : String) (args : List α)
    (autocommit : Bool) (res : Except ε Nat) :
    List (DbEvent α) × Except ε Nat :=
  let pre : List (DbEvent α) := if autocommit then [] else [DbEvent.begin]
  match res with
  | Except.ok affected =>
    (pre ++ [DbEvent.exec (replaceQ sql) args] ++
      (if autocommit then [] else [DbEvent.commit]), Except.ok affected)
  | Except.error e =>
    (pre ++ [DbEvent.exec (replaceQ sql) args] ++
      (if autocommit then [] else [DbEvent.rollback]), Except.error e)

/-- Embedding of `field.default() if callable(field.default) else field.default`
(orm.py lines 264-265), the resolution of a present default; `pyNone`
(no default) resolves to `None` but the source never stores that
case back. -/
def resolveDefault {α : Type u} : PyDefault α → Option α
  | PyDefault.pyNone => none
  | PyDefault.lit v => some v
  | PyDefault.fn f => f ()

/-- Embedding of `Model.getValueOrDefault(key)` (orm.py lines 254-269) for one
attribute slot.  `stored` models the instance's slot for `key`:
`none` when the key is absent from the backing dict, `some v` when it
is present holding the Python value `v` (itself `none` for a stored
`None`).  `getattr(self, key, None)` collapses absent and stored-
`None` to `None`.  When that is `None` and `field.default is not
None`, the default is resolved (called when callable) and stored back
with `setattr` — even when a callable returned `None`.  The result is
the returned value paired with the slot after the call. -/
def getValueOrDefault {α : Type u} (stored : Option (Option α))
    (field : Field α) : Option α × Option (Option α) :=
  match stored.getD none with
  | some v => (some v, stored)
  | none =>
    match field.default with
    | PyDefault.pyNone => (none, stored)
    | d =>
      let value := resolveDefault d
      (value, some value)

/-- The runtime shape of the `limit` keyword argument of
`Model.findAll` (orm.py lines 288-299): an `int`, a tuple of values,
or a value of any other type. -/
inductive LimitArg (α : Type u) : Type u where
  | int (n : α) : LimitArg α
  | tuple (xs : List α) : LimitArg α
  | other : LimitArg α

/-- Embedding of `Model.findAll(where, args, orderBy=..., limit=...)` (orm.py lines
273-301), up to the point of the `await select(...)` call.  The `ok`
value is the pair (joined SQL string, final argument list) passed to
`select`; an `error` means `ValueError` was raised before any I/O.
Faithful details: `if where:` and `if orderBy:` are truthiness tests;
`if args is None: args = []`; `limit` is compared with `is not None`,
then `'limit'` is appended to the SQL fragments before the shape of
`limit` is examined; an `int` appends `'?'` and `args.append(limit)`;
a 2-tuple appends `'?, ?'` and `args.extend(limit)`; anything else
raises `ValueError`.  The caller-supplied `args` list object is
mutated in place by `append`/`extend`; the returned list is its final
contents. -/
def findAll {α : Type u} (selectTpl : String) (whereC : Option String)
    (args : Option (List α)) (orderBy : Option String)
    (limit : Option (LimitArg α)) : Except String (String × List α) :=
  let sql := [selectTpl]
  let sql := if strTruthy whereC then sql ++ ["where", whereC.getD ""] else sql
  let args := args.getD []
  let sql := if strTruthy orderBy then sql ++ ["order by", orderBy.getD ""] else sql
  match limit with
  | none => Except.ok (join " " sql, args)
  | some lim =>
    let sql := sql ++ ["limit"]
    match lim with
    | LimitArg.int n => Except.ok (join " " (sql ++ ["?"]), args ++ [n])
    | LimitArg.tuple xs =>
      if xs.length = 2 then
        Except.ok (join " " (sql ++ ["?, ?"]), args ++ xs)
      else
        Except.error "Invalid limit value"
    | LimitArg.other => Except.error "Invalid limit value"

/-- Embedding of `Model.find(pk)` (orm.py lines 315-323): runs
`select('%s where `%s`=?' % (cls.__select__, cls.__primary_key__),
[pk], 1)` and returns `None` when the fetched result set is empty,
else `cls(**rs[0])` — the instance hydrated from the first row
(instances are attribute bags, so the hydrated instance is modelled
as the row itself).  `rows` is the full result set of the query on
the database side. -/
def find {α : Type u} {ρ : Type u} (selectTpl primaryKey : String)
    (pk : α) (rows : List ρ) : Option ρ :=
  let rs := (select (selectTpl ++ " where `" ++ primaryKey ++ "`=?")
    (some [pk]) (some 1) rows).2.2
  match rs with
  | [] => none
  | r :: _ => some r

/-- A pool-lifecycle event issued by `destroy_pool`. -/
inductive PoolEvent : Type where
  | close : PoolEvent
  | waitClosed : PoolEvent
  deriving DecidableEq

/-- The state of the module-level name `__pool`: never assigned
(reading it raises `NameError`), or bound to the pool object created
by `create_pool` (the only assignment in the module, and it never
assigns `None`). -/
inductive PoolGlobal (π : Type u) : Type u where
  | unbound : PoolGlobal π
  | bound (p : π) : PoolGlobal π

/-- Embedding of `destroy_pool()` (orm.py lines 42-46).  The body is
`global __pool; if __pool is not None: __pool.close();
await __pool.wait_closed()`.  When `create_pool` was never called the
global `__pool` is unbound, so evaluating `__pool is not None` raises
`NameError: name '__pool' is not defined`; otherwise the pool is
closed and its drain awaited. -/
def destroy_pool {π : Type u} (g : PoolGlobal π) :
    Except PyErr (List PoolEvent) :=
  match g with
  | PoolGlobal.unbound => Except.error (PyErr.nameError "__pool")
  | PoolGlobal.bound _ => Except.ok [PoolEvent.close, PoolEvent.waitClosed]

/-- The number of `'?'` placeholder characters in a SQL template.
Column identifiers contain no `'?'`, so every occurrence in a derived
template is a positional placeholder. -/
def qcount (s : String) : Nat :=
  s.data.count '?'

/-- Placeholder count lifted to an optional declared column name. -/
def qcountName : Option String → Nat
  | none => 0
  | some s => qcount s

/-- The `User` entity of the module's own example (orm.py lines
354-358): an integer primary key `id` and three string columns, over
`Int` as the value domain; a `plain` entry stands for the methods and
dunder attributes the scan skips. -/
def userAttrs : List (String × Attr Int) :=
  [("id", Attr.field (IntegerField (some "id") true (PyDefault.lit 0))),
   ("username", Attr.field (StringField (some "username") false PyDefault.pyNone "varchar(100)")),
   ("email", Attr.field (StringField (some "email") false PyDefault.pyNone "varchar(100)")),
   ("password", Attr.field (StringField (some "password") false PyDefault.pyNone "varchar(100)")),
   ("save", Attr.plain)]

/-- A declaration with two primary-key fields. -/
def dupPkAttrs : List (String × Attr Int) :=
  [("id", Attr.field (IntegerField (some "id") true (PyDefault.lit 0))),
   ("uid", Attr.field (IntegerField (some "uid") true (PyDefault.lit 0)))]

/-- A declaration with no primary-key field. -/
def noPkAttrs : List (String × Attr Int) :=
  [("username", Attr.field (StringField (some "username") false PyDefault.pyNone "varchar(100)"))]

/-- Counting `'?'` distributes over string append. -/
theorem qcount_append (s t : String) :
    qcount (s ++ t) = qcount s + qcount t := by
  simp [qcount, String.data_append]

/-- A join of `'?'`-free strings with a `'?'`-free separator is
`'?'`-free. -/
theorem qcount_join_zero (sep : String) (hsep : qcount sep = 0) :
    ∀ xs : List String, (∀ x ∈ xs, qcount x = 0) →
      qcount (join sep xs) = 0
  | [], _ => rfl
  | [x], h => by simpa [join] using h x (List.mem_singleton_self x)
  | x :: y :: rest, h => by
    have hx := h x (List.mem_cons_self x (y :: rest))
    have ht := qcount_join_zero sep hsep (y :: rest)
      (fun z hz => h z (List.mem_cons_of_mem x hz))
    simp [join, qcount_append, hx, hsep, ht]

/-- A join of strings holding one `'?'` each, with a `'?'`-free
separator, holds as many `'?'` as there are strings. -/
theorem qcount_join_one (sep : String) (hsep : qcount sep = 0) :
    ∀ xs : List String, (∀ x ∈ xs, qcount x = 1) →
      qcount (join sep xs) = xs.length
  | [], _ => rfl
  | [x], h => by simpa [join] using h x (List.mem_singleton_self x)
  | x :: y :: rest, h => by
    have hx := h x (List.mem_cons_self x (y :: rest))
    have ht := qcount_join_one sep hsep (y :: rest)
      (fun z hz => h z (List.mem_cons_of_mem x hz))
    simp [join, qcount_append, hx, hsep, ht]
    omega

/-- Derived argument strings consist of exactly `n` placeholders. -/
theorem qcount_create_args_string (n : Nat) :
    qcount (create_args_string n) = n := by
  have h := qcount_join_one ", " (by decide) (List.replicate n "?")
    (fun x hx => by rw [List.eq_of_mem_replicate hx]; decide)
  simpa [create_args_string] using h

/-- A successful `dict.get` returns an entry of the dictionary. -/
theorem dictGet_mem {α : Type u} (m : List (String × Field α))
    (k : String) (v : Field α) (h : dictGet m k = some v) : (k, v) ∈ m := by
  induction m with
  | nil => simp [dictGet] at h
  | cons p rest ih =>
    obtain ⟨k2, w⟩ := p
    by_cases hk : k2 = k
    · subst hk
      simp [dictGet] at h
      subst h
      exact List.mem_cons_self _ _
    · simp [dictGet, hk] at h
      exact List.mem_cons_of_mem _ (ih h)

/-- Each update set clause holds exactly one placeholder, provided the
attribute key and all declared column names are `'?'`-free. -/
theorem qcount_setClause {α : Type u} (mappings : List (String × Field α))
    (f : String) (hf : qcount f = 0)
    (hm : ∀ p ∈ mappings, qcountName p.2.name = 0) :
    qcount (setClause mappings f) = 1 := by
  have hcol : qcount (pyOrStr ((dictGet mappings f).bind Field.name) f) = 0 := by
    cases hd : dictGet mappings f with
    | none => simpa [pyOrStr, hd] using hf
    | some fd =>
      have hmem := dictGet_mem mappings f fd hd
      cases hn : fd.name with
      | none => simpa [pyOrStr, hd, hn] using hf
      | some s =>
        by_cases hs : s = ""
        · simpa [pyOrStr, hd, hn, hs] using hf
        · have hsq : qcount s = 0 := by
            simpa [qcountName, hn] using hm _ hmem
          simpa [pyOrStr, hd, hn, hs] using hsq
  have h1 : qcount "`" = 0 := by decide
  have h2 : qcount "`=?" = 1 := by decide
  simp [setClause, qcount_append, hcol, h1, h2]

/-- Claim C1 (code bug): declaring an entity type with two primary-key
fields, or with none, does make `ModelMetaclass.__new__` fail at the
documented spot — but via `raise StandardError(...)`, and
`StandardError` does not exist in Python 3, so the exception that
escapes is `NameError: name 'StandardError' is not defined`, which is
not a schema error and does not identify the offending field.  A
declaration with exactly one primary-key field succeeds. -/
theorem metaclass_primary_key_check_eval :
    modelMetaclassNew "User" none dupPkAttrs =
      Except.error (PyErr.nameError "StandardError") ∧
    modelMetaclassNew "NoPk" none noPkAttrs =
      Except.error (PyErr.nameError "StandardError") ∧
    (modelMetaclassNew "User" none userAttrs).isOk = true :=
  ⟨rfl, rfl, rfl⟩

/-- Claim C3: with `autocommit` false, `execute` begins a transaction
before the statement, commits after a successful statement, and rolls
back before re-raising the original driver exception on failure; with
`autocommit` true it issues no begin/commit/rollback and still
propagates the outcome unchanged. -/
theorem execute_transaction_bracket {α ε : Type u} (sql : String)
    (args : List α) (res : Except ε Nat) :
    (∀ n, res = Except.ok n → execute sql args false res =
      ([DbEvent.begin, DbEvent.exec (replaceQ sql) args, DbEvent.commit],
        Except.ok n)) ∧
    (∀ e, res = Except.error e → execute sql args false res =
      ([DbEvent.begin, DbEvent.exec (replaceQ sql) args, DbEvent.rollback],
        Except.error e)) ∧
    execute sql args true res = ([DbEvent.exec (replaceQ sql) args], res) := by
  refine ⟨?_, ?_, ?_⟩
  · rintro n rfl; rfl
  · rintro e rfl; rfl
  · cases res <;> rfl

/-- Witness for C3 at a concrete insert statement. -/
theorem execute_transaction_bracket_witness :
    execute "a?" [(7 : Nat)] false (Except.ok 1 : Except String Nat) =
      ([DbEvent.begin, DbEvent.exec (replaceQ "a?") [7], DbEvent.commit],
        Except.ok 1) :=
  (execute_transaction_bracket "a?" [(7 : Nat)]
    (Except.ok 1 : Except String Nat)).1 1 rfl

/-- Claim C4: `getValueOrDefault` returns the stored value untouched
when it is present and non-null; otherwise, when the field carries a
default, it resolves it (calling a callable, using a literal
directly), stores the resolved value back onto the instance slot, and
returns it. -/
theorem getValueOrDefault_spec {α : Type u} (stored : Option (Option α))
    (field : Field α) :
    (∀ v : α, stored = some (some v) →
      getValueOrDefault stored field = (some v, stored)) ∧
    (stored.getD none = none → field.default ≠ PyDefault.pyNone →
      getValueOrDefault stored field =
        (resolveDefault field.default, some (resolveDefault field.default))) := by
  constructor
  · rintro v rfl; rfl
  · intro hnone hd
    cases hdf : field.default with
    | pyNone => exact absurd hdf hd
    | lit v =>
      cases stored with
      | none => simp [getValueOrDefault, hdf, resolveDefault]
      | some w =>
        have hw : w = none := by simpa using hnone
        subst hw
        simp [getValueOrDefault, hdf, resolveDefault]
    | fn f =>
      cases stored with
      | none => simp [getValueOrDefault, hdf, resolveDefault]
      | some w =>
        have hw : w = none := by simpa using hnone
        subst hw
        simp [getValueOrDefault, hdf, resolveDefault]

/-- Witness for C4: an absent slot with a callable default gets the
produced value stored back and returned. -/
theorem getValueOrDefault_spec_witness :
    getValueOrDefault (none : Option (Option Nat))
      (Field.mk none "bigint" false (PyDefault.fn (fun _ => some 42))) =
      (some 42, some (some 42)) :=
  (getValueOrDefault_spec (none : Option (Option Nat))
    (Field.mk none "bigint" false (PyDefault.fn (fun _ => some 42)))).2
    rfl (fun h => PyDefault.noConfusion h)

/-- Claim C8 (code bug): `destroy_pool()` before any `create_pool()`
finds the module global `__pool` unbound, so the guard
`if __pool is not None` itself raises `NameError` — the call is not an
idempotent no-op.  Once the pool exists, it is closed and its drain
awaited. -/
theorem destroy_pool_lifecycle_eval :
    destroy_pool (PoolGlobal.unbound : PoolGlobal Unit) =
      Except.error (PyErr.nameError "__pool") ∧
    destroy_pool (PoolGlobal.bound ()) =
      Except.ok [PoolEvent.close, PoolEvent.waitClosed] :=
  ⟨rfl, rfl⟩

/-- Inversion for a successful entity-type construction: the stored
metadata is exactly the template derivation `buildMeta` applied to its
own recorded table name, primary key, mapping and field list. -/
theorem modelMetaclassNew_ok {α : Type u} (name : String)
    (tableAttr : Option String) (attrs : List (String × Attr α))
    (m : EntityMeta α)
    (h : modelMetaclassNew name tableAttr attrs = Except.ok (some m)) :
    m = buildMeta m.table m.primary_key m.mappings m.fields := by
  unfold modelMetaclassNew at h
  by_cases hn : name = "Model"
  · simp [hn] at h
  · rw [if_neg hn] at h
    cases hscan : scanLoop attrs ([] : List (String × Field α)) [] none with
    | error e => rw [hscan] at h; exact Except.noConfusion h
    | ok t =>
      obtain ⟨mappings, fields, pkOpt⟩ := t
      rw [hscan] at h
      dsimp only at h
      cases pkOpt with
      | none => exact Except.noConfusion h
      | some pk =>
        dsimp only at h
        by_cases hpk : pk = ""
        · rw [if_pos hpk] at h
          exact Except.noConfusion h
        · rw [if_neg hpk] at h
          have hm : buildMeta (pyOrStr tableAttr name) pk mappings fields = m := by
            have := Except.ok.inj h
            exact Option.some.inj this
          rw [← hm]
          rfl

/-- Claim C2: for every successfully declared entity type whose table
name, attribute keys and declared column names are free of the
placeholder character, the derived insert template holds exactly
`N + 1` positional placeholders and the derived update template holds
exactly `N + 1` positional placeholders (`N` set clauses plus one in
the where clause), where `N` is the number of non-primary-key mapped
fields. -/
theorem insert_update_placeholder_count {α : Type u} (name : String)
    (tableAttr : Option String) (attrs : List (String × Attr α))
    (m : EntityMeta α)
    (h : modelMetaclassNew name tableAttr attrs = Except.ok (some m))
    (htbl : qcount m.table = 0) (hpk : qcount m.primary_key = 0)
    (hf : ∀ f ∈ m.fields, qcount f = 0)
    (hm : ∀ p ∈ m.mappings, qcountName p.2.name = 0) :
    qcount m.insert = m.fields.length + 1 ∧
    qcount m.update = m.fields.length + 1 := by
  have hb := modelMetaclassNew_ok name tableAttr attrs m h
  have hesc : ∀ x ∈ m.fields.map escape, qcount x = 0 := by
    intro x hx
    obtain ⟨f, hfm, rfl⟩ := List.mem_map.1 hx
    have h1 : qcount "`" = 0 := by decide
    simp [escape, qcount_append, hf f hfm, h1]
  have hjoin0 : qcount (join ", " (m.fields.map escape)) = 0 :=
    qcount_join_zero ", " (by decide) _ hesc
  have hset : qcount (join ", " (m.fields.map (setClause m.mappings))) =
      m.fields.length := by
    have := qcount_join_one ", " (by decide) (m.fields.map (setClause m.mappings))
      (by
        intro x hx
        obtain ⟨f, hfm, rfl⟩ := List.mem_map.1 hx
        exact qcount_setClause m.mappings f (hf f hfm) hm)
    simpa using this
  constructor
  · have e : m.insert = mkInsert m.table (m.fields.map escape) m.primary_key := by
      conv_lhs => rw [hb]
      rfl
    rw [e]
    have hcas := qcount_create_args_string (m.fields.length + 1)
    have l1 : qcount "insert into `" = 0 := by decide
    have l2 : qcount "` (" = 0 := by decide
    have l3 : qcount ", `" = 0 := by decide
    have l4 : qcount "`) values (" = 0 := by decide
    have l5 : qcount ")" = 0 := by decide
    simp [mkInsert, qcount_append, htbl, hpk, hjoin0, hcas, l1, l2, l3, l4, l5,
      List.length_map]
  · have e : m.update = mkUpdate m.table
        (join ", " (m.fields.map (setClause m.mappings))) m.primary_key := by
      conv_lhs => rw [hb]
      rfl
    rw [e]
    have l1 : qcount "update `" = 0 := by decide
    have l2 : qcount "` set " = 0 := by decide
    have l3 : qcount " where `" = 0 := by decide
    have l4 : qcount "`=?" = 1 := by decide
    simp [mkUpdate, qcount_append, htbl, hpk, hset, l1, l2, l3, l4]

/-- The metadata the metaclass derives for the example `User`
declaration. -/
def userMeta : EntityMeta Int :=
  buildMeta "User" "id"
    [("id", IntegerField (some "id") true (PyDefault.lit 0)),
     ("username", StringField (some "username") false PyDefault.pyNone "varchar(100)"),
     ("email", StringField (some "email") false PyDefault.pyNone "varchar(100)"),
     ("password", StringField (some "password") false PyDefault.pyNone "varchar(100)")]
    ["username", "email", "password"]

/-- Witness for C2 on the example `User` entity: three non-key fields,
four placeholders in each of the insert and update templates. -/
theorem insert_update_placeholder_count_witness :
    qcount userMeta.insert = 4 ∧ qcount userMeta.update = 4 :=
  insert_update_placeholder_count "User" none userAttrs userMeta rfl
    (by decide) (by decide) (by decide) (by decide)

/-- Counterexample to claim C5 as stated: `select` is called with a
size limit of `0`, yet all rows are fetched — `if size:` treats `0`
like "no size", so `fetchall` runs instead of `fetchmany(0)`, and the
result is not capped at `0` rows. -/
theorem select_size_zero_cex :
    (select "select `id` from `U`" (some ([] : List Nat)) (some 0)
      [(1 : Nat), 2]).2.2 = [1, 2] ∧
    ¬ ((select "select `id` from `U`" (some ([] : List Nat)) (some 0)
      [(1 : Nat), 2]).2.2.length ≤ 0) :=
  ⟨rfl, by decide⟩

/-- Claim C5 as amended: `select` executes the template with every
`'?'` placeholder replaced by the driver marker `'%s'`; when a
nonzero size limit is given, the first at-most-`size` rows are
fetched client-side, so at most `size` rows are returned; when the
size is absent or zero, all rows are fetched. -/
theorem select_replace_and_fetch {α ρ : Type u} (sql : String)
    (args : Option (List α)) (size : Option Nat) (rows : List ρ) :
    (select sql args size rows).1 = replaceQ sql ∧
    qcount (select sql args size rows).1 = 0 ∧
    (∀ n, size = some n → n ≠ 0 →
      (select sql args size rows).2.2 = rows.take n ∧
      (select sql args size rows).2.2.length ≤ n) ∧
    ((size = none ∨ size = some 0) → (select sql args size rows).2.2 = rows) := by
  refine ⟨rfl, ?_, ?_, ?_⟩
  · show qcount (replaceQ sql) = 0
    simp only [replaceQ, qcount]
    induction sql.data with
    | nil => rfl
    | cons c cs ih =>
      by_cases hc : c = '?'
      · subst hc
        simp [List.count_cons, ih]
      · simp [List.count_cons, ih, hc]
  · rintro n rfl hn
    refine ⟨by simp [select, hn], ?_⟩
    simp [select, hn, List.length_take]
  · rintro (rfl | rfl) <;> simp [select]

/-- Witness for C5 (amended) at a nonzero size. -/
theorem select_replace_and_fetch_witness :
    (select "a?" (some ([] : List Nat)) (some 1) [(10 : Nat), 20]).2.2 = [10] ∧
    (select "a?" (some ([] : List Nat)) (some 1) [(10 : Nat), 20]).2.2.length ≤ 1 :=
  (select_replace_and_fetch "a?" (some ([] : List Nat)) (some 1)
    [(10 : Nat), 20]).2.2.1 1 rfl (by decide)

/-- Claim C6: a `limit` argument that is neither an `int` nor a
2-element tuple makes `findAll` raise `ValueError` before the
`await select(...)` — the result is the error, and no select-call
description (SQL plus arguments) is ever produced. -/
theorem findAll_invalid_limit {α : Type u} (selectTpl : String)
    (whereC : Option String) (args : Option (List α))
    (orderBy : Option String) (lim : LimitArg α)
    (hint : ∀ n, lim ≠ LimitArg.int n)
    (htup : ∀ xs, lim = LimitArg.tuple xs → xs.length ≠ 2) :
    findAll selectTpl whereC args orderBy (some lim) =
      Except.error "Invalid limit value" := by
  cases lim with
  | int n => exact absurd rfl (hint n)
  | tuple xs =>
    have hlen := htup xs rfl
    simp [findAll, hlen]
  | other => simp [findAll]

/-- Witness for C6: a `limit` of a wrong runtime type. -/
theorem findAll_invalid_limit_witness :
    findAll "select `id` from `U`" none (some ([] : List Nat)) none
      (some LimitArg.other) = Except.error "Invalid limit value" :=
  findAll_invalid_limit "select `id` from `U`" none (some []) none
    LimitArg.other (fun _ h => nomatch h) (fun _ h => nomatch h)

/-- Claim C7: `find(pk)` runs the select-by-key query with a
single-row fetch cap (at most one row is fetched client-side) and
returns `None` on an empty result set, else exactly the instance
hydrated from the first returned row. -/
theorem find_by_pk_spec {α ρ : Type u} (selectTpl primaryKey : String)
    (pk : α) (rows : List ρ) :
    (rows = [] → find selectTpl primaryKey pk rows = none) ∧
    (∀ r rest, rows = r :: rest →
      find selectTpl primaryKey pk rows = some r) ∧
    (select (selectTpl ++ " where `" ++ primaryKey ++ "`=?")
      (some [pk]) (some 1) rows).2.2.length ≤ 1 := by
  refine ⟨?_, ?_, ?_⟩
  · rintro rfl; rfl
  · rintro r rest rfl; rfl
  · simp [select, List.length_take]

/-- Witness for C7: a one-row result set yields the hydrated row, an
empty one yields `None`. -/
theorem find_by_pk_spec_witness :
    find "select `id` from `U`" "id" (8 : Nat) [(100 : Nat)] = some 100 :=
  (find_by_pk_spec "select `id` from `U`" "id" (8 : Nat)
    [(100 : Nat)]).2.1 100 [] rfl

/-- A string field whose declared column name is present but empty. -/
def emptyNameField : Field Int :=
  StringField (some "") false PyDefault.pyNone "varchar(100)"

/-- The `id` descriptor used in the C9 counterexample mapping. -/
def idFieldC9 : Field Int := IntegerField (some "id") true (PyDefault.lit 0)

/-- Counterexample to claim C9 as stated: for a field whose declared
name is present but empty (`StringField(name='')` on key `foo`), the
update template's set clause falls back to the attribute key — Python
`or` tests truthiness, not absence — so `falling back to the attribute
key only when the declared name is absent` is false: here the declared
name is present, yet the clause targets `` `foo` `` and not the
declared (empty) name. -/
theorem update_template_empty_name_cex :
    emptyNameField.name = some "" ∧
    setClause [("id", idFieldC9), ("foo", emptyNameField)] "foo" = "`foo`=?" ∧
    (buildMeta "T" "id" [("id", idFieldC9), ("foo", emptyNameField)]
      ["foo"]).update = "update `T` set `foo`=? where `id`=?" ∧
    "`foo`=?" ≠ "``=?" :=
  ⟨rfl, rfl, rfl, by decide⟩

/-- Claim C9 as amended: the select and insert templates reference
each mapped field by its attribute key, while the update template's
set clauses reference the field's declared name when it is present
and non-empty, falling back to the attribute key when the declared
name is absent or empty; hence for any field whose declared name is
non-empty and differs from its attribute key, the update template
targets a different column than the select and insert templates. -/
theorem update_template_uses_declared_name {α : Type u}
    (mappings : List (String × Field α)) (fields : List String)
    (tableName pk : String) (i : Nat) (hi : i < fields.length)
    (fd : Field α) (s : String)
    (hlook : dictGet mappings (fields.get ⟨i, hi⟩) = some fd)
    (hname : fd.name = some s) (hs : s ≠ "")
    (hdiff : s ≠ fields.get ⟨i, hi⟩) :
    (fields.map (setClause mappings)).get ⟨i, by simpa using hi⟩ =
      "`" ++ s ++ "`=?" ∧
    (fields.map escape).get ⟨i, by simpa using hi⟩ =
      "`" ++ fields.get ⟨i, hi⟩ ++ "`" ∧
    "`" ++ s ++ "`=?" ≠ "`" ++ fields.get ⟨i, hi⟩ ++ "`=?" ∧
    (buildMeta tableName pk mappings fields).update =
      mkUpdate tableName (join ", " (fields.map (setClause mappings))) pk := by
  refine ⟨?_, ?_, ?_, rfl⟩
  · rw [List.get_eq_getElem] at hlook
    rw [List.get_eq_getElem, List.getElem_map]
    simp [setClause, hlook, hname, pyOrStr, hs]
  · rw [List.get_eq_getElem, List.getElem_map]
    rfl
  · intro h
    apply hdiff
    have hdata := congrArg String.data h
    simp only [String.data_append] at hdata
    have h2 := List.append_cancel_right hdata
    have h3 := List.append_cancel_left h2
    exact String.ext h3

/-- A string field with a non-empty declared name differing from its
attribute key. -/
def unameField : Field Int :=
  StringField (some "uname") false PyDefault.pyNone "varchar(100)"

/-- Witness for C9 (amended): key `username`, declared name `uname` —
the update set clause targets `` `uname` `` while select and insert
reference `` `username` ``. -/
theorem update_template_uses_declared_name_witness :
    (["username"].map (setClause [("username", unameField)])).get
      ⟨0, by decide⟩ = "`" ++ "uname" ++ "`=?" ∧
    (["username"].map escape).get ⟨0, by decide⟩ =
      "`" ++ "username" ++ "`" ∧
    "`" ++ "uname" ++ "`=?" ≠ "`" ++ "username" ++ "`=?" ∧
    (buildMeta "User" "id" [("username", unameField)] ["username"]).update =
      mkUpdate "User" (join ", " (["username"].map
        (setClause [("username", unameField)]))) "id" :=
  update_template_uses_declared_name [("username", unameField)]
    ["username"] "User" "id" 0 (by decide) unameField "uname" rfl rfl
    (by decide) (by decide)

/-- Claim C10: when the caller supplies an `args` list and a valid
`limit` (an `int` or a 2-element tuple), `findAll` appends the limit
(and offset) values to that list — `args.append` / `args.extend`
mutate the caller's list object in place — so after the call the
caller's list is a strictly longer extension of what was passed in.
The embedding threads the list state explicitly: the `ok` payload is
the final contents of the caller's list object. -/
theorem findAll_appends_to_args {α : Type u} (selectTpl : String)
    (whereC orderBy : Option String) (l : List α) (lim : LimitArg α)
    (hvalid : (∃ n, lim = LimitArg.int n) ∨
      (∃ xs, lim = LimitArg.tuple xs ∧ xs.length = 2)) :
    ∃ extra, extra ≠ [] ∧ l.length < (l ++ extra).length ∧
      (findAll selectTpl whereC (some l) orderBy (some lim)).map Prod.snd =
        Except.ok (l ++ extra) := by
  rcases hvalid with ⟨n, rfl⟩ | ⟨xs, rfl, hlen⟩
  · exact ⟨[n], by simp, by simp, rfl⟩
  · refine ⟨xs, ?_, ?_, ?_⟩
    · intro h
      rw [h] at hlen
      simp at hlen
    · have hne : xs ≠ [] := by
        intro h
        rw [h] at hlen
        simp at hlen
      have hpos : 0 < xs.length := List.length_pos.2 hne
      simp only [List.length_append]
      omega
    · unfold findAll
      dsimp only
      rw [if_pos hlen]
      rfl

/-- Witness for C10: a one-element caller list grows to two after
`findAll` with an integer limit. -/
theorem findAll_appends_to_args_witness :
    findAll "select `id` from `U`" none (some [(5 : Nat)]) none
      (some (LimitArg.int 7)) =
      Except.ok ("select `id` from `U` limit ?", [5, 7]) ∧
    [(5 : Nat)].length < [(5 : Nat), 7].length := by
  have _h := findAll_appends_to_args "select `id` from `U`" none none
    [(5 : Nat)] (LimitArg.int 7) (Or.inl ⟨7, rfl⟩)
  exact ⟨rfl, by decide⟩

end orm
